import Mathlib

/-!
# GoXLR utility daemon — verification of the device state-reconciliation core

This file gives a shallow embedding of the device-controller core of the
GoXLR utility daemon (`daemon/src/device.rs`, `daemon/src/mic_profile.rs`) and
proves properties of the embedded definitions.

Conventions of the embedding:

* Machine integers are modelled as `Nat` (for `u8`/`u128` values) and `Int`
  (for `i8`/`i32` values); none of the verified operations can overflow their
  source-level width (volumes are only snapshotted, zeroed and restored;
  times only grow).
* The hardware session (the `GoXLR` USB handle) is modelled as a record of the
  state last pushed to the device: per-channel volume and mute state, the
  per-input routing map, and logs of pushed microphone-parameter and effect
  key sets.  Routing is recorded at the granularity of the per-input
  output-device map that `apply_routing` computes; the projection of that map
  onto the 22-byte wire arrays lives in the `goxlr-usb` crate, outside the
  sources verified here.  Hardware calls always succeed (transport failures
  are not in the scope of any claim below).
* Fallible operations return `Except`.
-/

namespace GoXLRSpec

/-! ## Enumerated types

These enums live in the `goxlr-types` and profile-loader crates.  Their
variants are taken from the exhaustive uses in `daemon/src/device.rs` and
`daemon/src/mic_profile.rs`.
-/

/-- Channel names, from the fader-assignment and routing matches in
`device.rs` (the wildcard arm of the channel-to-input match shows there are
channels beyond the eight routable ones; the spec data model names the
routable eight and the extra output-side channels). -/
inductive ChannelName
  | Mic | LineIn | Console | System | Game | Chat | Sample | Music
  | Headphones | MicMonitor | LineOut
  deriving DecidableEq, Fintype, Repr

/-- The four physical fader slots. -/
inductive FaderName
  | A | B | C | D
  deriving DecidableEq, Fintype, Repr

/-- Mute-button behaviour, from `goxlr-profile-loader` (`components::mute`). -/
inductive MuteFunction
  | All | ToStream | ToVoiceChat | ToPhones | ToLineOut
  deriving DecidableEq, Fintype, Repr

/-- Hardware channel state, from `goxlr-usb` (`channelstate`). -/
inductive ChannelState
  | Muted | Unmuted
  deriving DecidableEq, Fintype, Repr

/-- Logical input devices (`goxlr-types`), from the channel-to-input match in
`handle_fader_mute` and the input-to-channel match in
`apply_transient_routing`. -/
inductive BasicInputDevice
  | Microphone | Chat | Music | Game | Console | LineIn | System | Samples
  deriving DecidableEq, Fintype, Repr

/-- Logical output devices (`goxlr-types`), from
`apply_transient_channel_routing` plus the sampler destination of the data
model. -/
inductive BasicOutputDevice
  | Headphones | BroadcastMix | LineOut | ChatMic | Sampler
  deriving DecidableEq, Fintype, Repr

/-- Physical buttons (`goxlr-usb` `buttonstate::Buttons`), from the dispatch
matches in `on_button_down` / `on_button_hold` / `on_button_up`. -/
inductive Buttons
  | Fader1Mute | Fader2Mute | Fader3Mute | Fader4Mute
  | MicrophoneMute | Bleep
  | EffectSelect1 | EffectSelect2 | EffectSelect3
  | EffectSelect4 | EffectSelect5 | EffectSelect6
  | EffectMegaphone | EffectRobot | EffectHardTune | EffectFx
  | SamplerSelectA | SamplerSelectB | SamplerSelectC
  | SamplerBottomLeft | SamplerBottomRight | SamplerTopLeft | SamplerTopRight
  deriving DecidableEq, Fintype, Repr

/-- Microphone DSP parameter keys (`goxlr-types`), from the exhaustive match
in `MicProfileAdapter::get_param_value`. -/
inductive MicrophoneParamKey
  | MicType | DynamicGain | CondenserGain | JackGain
  | GateThreshold | GateAttack | GateRelease | GateAttenuation
  | CompressorThreshold | CompressorRatio | CompressorAttack
  | CompressorRelease | CompressorMakeUpGain
  | BleepLevel
  | Equalizer90HzFrequency | Equalizer90HzGain
  | Equalizer250HzFrequency | Equalizer250HzGain
  | Equalizer500HzFrequency | Equalizer500HzGain
  | Equalizer1KHzFrequency | Equalizer1KHzGain
  | Equalizer3KHzFrequency | Equalizer3KHzGain
  | Equalizer8KHzFrequency | Equalizer8KHzGain
  deriving DecidableEq, Fintype, Repr

/-- Effect parameter keys (`goxlr-types`), from the exhaustive match in
`MicProfileAdapter::get_effect_value`. -/
inductive EffectKey
  | DisableMic | BleepLevel | GateMode | GateEnabled
  | GateThreshold | GateAttenuation | GateAttack | GateRelease | Unknown14b
  | Equalizer31HzFrequency | Equalizer63HzFrequency | Equalizer125HzFrequency
  | Equalizer250HzFrequency | Equalizer500HzFrequency | Equalizer1KHzFrequency
  | Equalizer2KHzFrequency | Equalizer4KHzFrequency | Equalizer8KHzFrequency
  | Equalizer16KHzFrequency
  | Equalizer31HzGain | Equalizer63HzGain | Equalizer125HzGain
  | Equalizer250HzGain | Equalizer500HzGain | Equalizer1KHzGain
  | Equalizer2KHzGain | Equalizer4KHzGain | Equalizer8KHzGain
  | Equalizer16KHzGain
  | CompressorThreshold | CompressorRatio | CompressorAttack
  | CompressorRelease | CompressorMakeUpGain
  | DeEsser
  | ReverbAmount | ReverbDecay | ReverbEarlyLevel | ReverbTailLevel
  | ReverbPredelay | ReverbLoColor | ReverbHiColor | ReverbHiFactor
  | ReverbDiffuse | ReverbModSpeed | ReverbModDepth | ReverbStyle
  | EchoAmount | EchoFeedback | EchoTempo | EchoDelayL | EchoDelayR
  | EchoFeedbackL | EchoXFBLtoR | EchoFeedbackR | EchoXFBRtoL
  | EchoSource | EchoDivL | EchoDivR | EchoFilterStyle
  | PitchAmount | PitchThreshold | PitchCharacter
  | GenderAmount
  | MegaphoneAmount | MegaphonePostGain | MegaphoneStyle | MegaphoneHP
  | MegaphoneLP | MegaphonePreGain | MegaphoneDistType
  | MegaphonePresenceGain | MegaphonePresenceFC | MegaphonePresenceBW
  | MegaphoneBeatboxEnable | MegaphoneFilterControl | MegaphoneFilter
  | MegaphoneDrivePotGainCompMid | MegaphoneDrivePotGainCompMax
  | HardTuneAmount | HardTuneKeySource | HardTuneScale
  | HardTunePitchAmount | HardTuneRate | HardTuneWindow
  | RobotLowGain | RobotLowFreq | RobotLowWidth
  | RobotMidGain | RobotMidFreq | RobotMidWidth
  | RobotHiGain | RobotHiFreq | RobotHiWidth
  | RobotWaveform | RobotPulseWidth | RobotThreshold | RobotDryMix
  | RobotStyle
  | RobotEnabled | MegaphoneEnabled | HardTuneEnabled
  | Encoder1Enabled | Encoder2Enabled | Encoder3Enabled | Encoder4Enabled
  deriving DecidableEq, Fintype, Repr

/-! ## Gate attenuation (`daemon/src/mic_profile.rs`) -/

/-- The 26-entry non-linear attenuation table `GATE_ATTENUATION`
(`mic_profile.rs` lines 22-25). -/
def GATE_ATTENUATION : List Int :=
  [-6, -7, -8, -9, -10, -11, -12, -13, -14, -15, -16, -17, -18, -19, -20,
   -21, -22, -23, -24, -25, -26, -27, -28, -30, -32, -61]

/-- Number of bits of a natural number below `2 ^ 64` (zero for zero), by
structural recursion on an explicit fuel so the kernel can evaluate it. -/
def bitLenAux : Nat → Nat → Nat
  | 0, _ => 0
  | fuel + 1, n => if n = 0 then 0 else bitLenAux fuel (n / 2) + 1

/-- Bit length: for positive `n` below `2 ^ 64` this is `Nat.log2 n + 1`. -/
def bitLen (n : Nat) : Nat := bitLenAux 64 n

/-- Round a nonnegative integer significand to 24 significant bits with
round-to-nearest, ties-to-even.  This is the IEEE-754 binary32 rounding step:
a product whose exact value is `p / 2 ^ 26` is stored by an `f32`
multiplication as `roundToF32Sig p / 2 ^ 26` (no overflow or subnormals occur
in the range used here, `p < 2 ^ 32`). -/
def roundToF32Sig (p : Nat) : Nat :=
  if p < 2 ^ 24 then p
  else
    let s := bitLen p - 24
    let q := p / 2 ^ s
    let r := p % 2 ^ s
    let h := 2 ^ (s - 1)
    let q' := if r > h then q + 1 else if r < h then q else if q % 2 = 0 then q else q + 1
    q' * 2 ^ s

/-- The `f32` literal `0.24` is exactly `16106127 / 2 ^ 26`. -/
def F32_ZERO_POINT_24_NUM : Nat := 16106127

/-- The table index computed by `value as f32 * 0.24` followed by the
truncating `as usize` cast: the integer `value` converts to `f32` exactly
(it is below `2 ^ 24`), the product rounds to nearest-even, and the cast
truncates toward zero. -/
def gateAttenuationIndex (value : Nat) : Nat :=
  roundToF32Sig (value * F32_ZERO_POINT_24_NUM) / 2 ^ 26

/-- Embeds `MicProfileAdapter::gate_attenuation_from_percent`
(`mic_profile.rs` lines 864-872).  An out-of-bounds table access (a panic in
the source) is modelled as `none`. -/
def gate_attenuation_from_percent (value : Nat) : Option Int :=
  if value > 99 then GATE_ATTENUATION.get? 25
  else GATE_ATTENUATION.get? (gateAttenuationIndex value)

example : gate_attenuation_from_percent 0 = some (-6) := by decide
example : gate_attenuation_from_percent 100 = some (-61) := by decide
example : gate_attenuation_from_percent 25 = some (-12) := by decide
example : gate_attenuation_from_percent 24 = some (-11) := by decide
example : gate_attenuation_from_percent 99 = some (-30) := by decide
example : gate_attenuation_from_percent 255 = some (-61) := by decide

/-! ## The profile store

`daemon/src/profile.rs` (the `ProfileAdapter`) is not part of the verified
sources; only its accessors are called from `device.rs`.  The state it holds
and the accessor semantics below are modelled from the spec data model
(§3 MuteButtonState / CoughButtonState / RoutingTable / Fader).

One modelling note: the spec stores both a `muted_to_all` flag and a `blink`
flag, but its own transition description only ever writes `blink` on a held
mute while reading `muted_to_all` in the guard that makes a repeated hold a
no-op ("prevents re-snapshotting volume").  Those are consistent exactly when
`muted_to_all` is the blink state of the mute button, which is how the
accessors below report it: `get_mute_button_state` returns the lighting state
as `muted_to_x` and the blink state as `muted_to_all`. -/

/-- Modelled from the spec: per-fader mute-button state held by the profile
store (spec §3). -/
structure MuteButtonState where
  light_on : Bool
  blink_on : Bool
  mute_function : MuteFunction
  previous_volume : Nat
  deriving DecidableEq, Repr

/-- Modelled from the spec: the cough/chat mute-button state (spec §3), with
the extra toggle dimension. -/
structure CoughButtonState where
  mute_toggle : Bool
  light_on : Bool
  blink_on : Bool
  mute_function : MuteFunction
  deriving DecidableEq, Repr

/-- Modelled from the spec: the in-memory mixer profile held by the
`ProfileAdapter` (spec §3): fader assignments, channel volumes, mute-button
states, cough state, persisted routing table and the mic-fader id used by
`mic_muted_by_fader` (4 meaning "mic not on a fader"). -/
structure Profile where
  name : String
  fader_assignment : FaderName → ChannelName
  channel_volume : ChannelName → Nat
  mute_buttons : FaderName → MuteButtonState
  cough : CoughButtonState
  routing : BasicInputDevice → BasicOutputDevice → Bool
  mic_fader_id : Nat

/-- Accessor `ProfileAdapter::get_mute_button_state`: `(muted_to_x, muted_to_all,
mute_function)`.  Modelled from the spec, see the section comment. -/
def Profile.get_mute_button_state (p : Profile) (f : FaderName) :
    Bool × Bool × MuteFunction :=
  let mb := p.mute_buttons f
  (mb.light_on, mb.blink_on, mb.mute_function)

/-- Accessor `ProfileAdapter::get_mute_chat_button_state`: `(mute_toggle, muted_to_x,
muted_to_all, mute_function)`.  Modelled from the spec. -/
def Profile.get_mute_chat_button_state (p : Profile) :
    Bool × Bool × Bool × MuteFunction :=
  (p.cough.mute_toggle, p.cough.light_on, p.cough.blink_on, p.cough.mute_function)

def Profile.set_mute_button (p : Profile) (f : FaderName) (mb : MuteButtonState) :
    Profile :=
  { p with mute_buttons := fun x => if x = f then mb else p.mute_buttons x }

def Profile.set_mute_button_on (p : Profile) (f : FaderName) (v : Bool) : Profile :=
  p.set_mute_button f { p.mute_buttons f with light_on := v }

def Profile.set_mute_button_blink (p : Profile) (f : FaderName) (v : Bool) : Profile :=
  p.set_mute_button f { p.mute_buttons f with blink_on := v }

def Profile.set_mute_button_previous_volume (p : Profile) (f : FaderName) (v : Nat) :
    Profile :=
  p.set_mute_button f { p.mute_buttons f with previous_volume := v }

def Profile.get_mute_button_previous_volume (p : Profile) (f : FaderName) : Nat :=
  (p.mute_buttons f).previous_volume

def Profile.set_channel_volume (p : Profile) (c : ChannelName) (v : Nat) : Profile :=
  { p with channel_volume := fun x => if x = c then v else p.channel_volume x }

def Profile.set_mute_chat_button_on (p : Profile) (v : Bool) : Profile :=
  { p with cough := { p.cough with light_on := v } }

def Profile.set_mute_chat_button_blink (p : Profile) (v : Bool) : Profile :=
  { p with cough := { p.cough with blink_on := v } }

/-! ## The microphone profile store (`daemon/src/mic_profile.rs` and
`profile/src/mic_profile.rs`) -/

/-- Gate settings of `MicProfileSettings` (raw device-scale values). -/
structure GateSettings where
  threshold : Int
  attenuation : Nat
  attack : Nat
  release : Nat
  enabled : Bool
  deriving DecidableEq, Repr

/-- Compressor settings of `MicProfileSettings` (raw device-scale values). -/
structure CompressorSettings where
  threshold : Int
  ratio : Nat
  attack : Nat
  release : Nat
  makeup : Nat
  deriving DecidableEq, Repr

/-- Microphone setup (type and per-type gains) of `MicProfileSettings`. -/
structure MicSetupSettings where
  mic_type : Nat
  dynamic_mic_gain : Nat
  condenser_mic_gain : Nat
  trs_mic_gain : Nat
  deriving DecidableEq, Repr

/-- The parts of `MicProfileSettings` touched by the verified claims
(equalizer banks and UI setup are carried by the same structure in the source
but no claim reads or writes them). -/
structure MicProfileSettings where
  gate : GateSettings
  compressor : CompressorSettings
  setup : MicSetupSettings
  deriving DecidableEq, Repr

/-- Adapter `MicProfileAdapter`: a named, loaded microphone profile. -/
structure MicProfileAdapter where
  name : String
  profile : MicProfileSettings
  deriving DecidableEq, Repr

def MicProfileAdapter.set_compressor_threshold (a : MicProfileAdapter) (value : Int) :
    MicProfileAdapter :=
  { a with profile := { a.profile with
      compressor := { a.profile.compressor with threshold := value } } }

/-- Constant `DEFAULT_MIC_PROFILE_NAME` (`mic_profile.rs` line 19). -/
def DEFAULT_MIC_PROFILE_NAME : String := "DEFAULT"

/-- The parsed contents of the embedded `DEFAULT.goxlrMicProfile` bytes.  The
actual bytes are data, not code; the claims only need that some fixed default
exists. -/
def defaultMicProfileSettings : MicProfileSettings :=
  { gate := { threshold := -30, attenuation := 100, attack := 0, release := 0,
              enabled := true }
    compressor := { threshold := 0, ratio := 0, attack := 0, release := 0,
                    makeup := 0 }
    setup := { mic_type := 0, dynamic_mic_gain := 50, condenser_mic_gain := 40,
               trs_mic_gain := 20 } }

/-- Embeds `MicProfileAdapter::default()`. -/
def MicProfileAdapter.default : MicProfileAdapter :=
  { name := DEFAULT_MIC_PROFILE_NAME, profile := defaultMicProfileSettings }

/-! ## Profile loading

A configured directory is modelled by which profile files it contains and
what each parses to: `files name = none` means no file named
`name.goxlrMicProfile` (resp. `name.goxlr`) exists; `some (.error ())` is a
file that fails to parse; `some (.ok s)` parses to `s`. -/

/-- Errors surfaced by the embedded operations: validation errors carry the
source message; the not-found errors model the `anyhow!` resource errors of
`from_named`; `parseFailed` models a profile file that does not load. -/
inductive CommandError
  | validation (msg : String)
  | micProfileNotFound (name : String)
  | profileNotFound (name : String)
  | parseFailed
  deriving DecidableEq, Repr

/-- A mic-profile directory, by contents. -/
structure MicDir where
  files : String → Option (Except Unit MicProfileSettings)

/-- Embeds `MicProfileAdapter::from_named` (`mic_profile.rs` lines 45-66): search the
directories in order for `name.goxlrMicProfile`; load the first hit; with no
hit, the reserved default name yields the built-in default and any other name
is a resource error. -/
def MicProfileAdapter.from_named (name : String) :
    List MicDir → Except CommandError MicProfileAdapter
  | [] =>
    if name = DEFAULT_MIC_PROFILE_NAME then .ok MicProfileAdapter.default
    else .error (.micProfileNotFound name)
  | d :: rest =>
    match d.files name with
    | some (.ok s) => .ok { name := name, profile := s }
    | some (.error _) => .error .parseFailed
    | none => MicProfileAdapter.from_named name rest

/-- Modelled from the spec: the main profile's reserved default name
(`profile.rs` is not in the verified sources; spec §8 "is not the reserved
default name"). -/
def DEFAULT_PROFILE_NAME : String := "DEFAULT"

/-- Modelled from the spec: the built-in default mixer profile that the
reserved default name loads.  Its contents are data embedded in the binary;
the claims only need that some fixed default exists. -/
def defaultProfile : Profile :=
  { name := DEFAULT_PROFILE_NAME
    fader_assignment := fun f => match f with
      | .A => .Mic | .B => .Chat | .C => .Music | .D => .System
    channel_volume := fun _ => 128
    mute_buttons := fun _ =>
      { light_on := false, blink_on := false, mute_function := .All,
        previous_volume := 0 }
    cough := { mute_toggle := true, light_on := false, blink_on := false,
               mute_function := .All }
    routing := fun _ _ => true
    mic_fader_id := 0 }

/-- A mixer-profile directory, by contents. -/
structure ProfDir where
  files : String → Option (Except Unit Profile)

/-- Modelled from the spec: `ProfileAdapter::from_named` (`profile.rs` is not
in the verified sources).  Per spec §6/§8 it searches the configured
directories for the named profile; a missing name that is not the reserved
default yields a resource error, mirroring `MicProfileAdapter::from_named`. -/
def ProfileAdapter.from_named (name : String) :
    List ProfDir → Except CommandError Profile
  | [] =>
    if name = DEFAULT_PROFILE_NAME then .ok defaultProfile
    else .error (.profileNotFound name)
  | d :: rest =>
    match d.files name with
    | some (.ok p) => .ok { p with name := name }
    | some (.error _) => .error .parseFailed
    | none => ProfileAdapter.from_named name rest

/-! ## The hardware session -/

/-- GoXLR device flavour (`goxlr-ipc` `DeviceType`). -/
inductive DeviceType
  | Unknown | Full | Mini
  deriving DecidableEq, Repr

/-- The state last pushed to the hardware through the `GoXLR` session handle:
per-channel volume and mute state, fader assignments, the per-input routing
map computed by `apply_routing`, the selected microphone gain, and logs (most
recent first) of the key sets pushed by `set_mic_param` /
`set_effect_values`. -/
structure Hardware where
  volumes : ChannelName → Nat
  channel_states : ChannelName → ChannelState
  faders : FaderName → ChannelName
  routing : BasicInputDevice → BasicOutputDevice → Bool
  mic_gain : Nat
  mic_param_pushes : List (MicrophoneParamKey → Bool)
  effect_pushes : List (EffectKey → Bool)
  device_type : DeviceType

/-- The settings handle surface used by the verified commands. -/
structure Settings where
  bleep_volume : Option Int
  profile_directory : ProfDir
  mic_profile_directory : MicDir
  device_profile_name : Option String
  device_mic_profile_name : Option String

/-- The device controller (`Device` in `device.rs`): profile stores, hardware
session state and settings. -/
structure Device where
  profile : Profile
  mic_profile : MicProfileAdapter
  hardware : Hardware
  settings : Settings

/-! Hardware session primitives (each models one `self.goxlr.*` call). -/

def Device.goxlr_set_volume (d : Device) (c : ChannelName) (v : Nat) : Device :=
  { d with hardware := { d.hardware with
      volumes := fun x => if x = c then v else d.hardware.volumes x } }

def Device.goxlr_set_channel_state (d : Device) (c : ChannelName) (s : ChannelState) :
    Device :=
  { d with hardware := { d.hardware with
      channel_states := fun x => if x = c then s else d.hardware.channel_states x } }

def Device.goxlr_set_fader (d : Device) (f : FaderName) (c : ChannelName) : Device :=
  { d with hardware := { d.hardware with
      faders := fun x => if x = f then c else d.hardware.faders x } }

def Device.goxlr_set_routing (d : Device) (input : BasicInputDevice)
    (router : BasicOutputDevice → Bool) : Device :=
  { d with hardware := { d.hardware with
      routing := fun i => if i = input then router else d.hardware.routing i } }

def Device.goxlr_set_mic_param_keys (d : Device) (keys : MicrophoneParamKey → Bool) :
    Device :=
  { d with hardware := { d.hardware with
      mic_param_pushes := keys :: d.hardware.mic_param_pushes } }

def Device.goxlr_set_effect_keys (d : Device) (keys : EffectKey → Bool) : Device :=
  { d with hardware := { d.hardware with
      effect_pushes := keys :: d.hardware.effect_pushes } }

/-- Key set of an explicit key list (a `set_effect_values` slice or a
`HashSet::from([...])`). -/
def effectKeysOf (l : List EffectKey) : EffectKey → Bool := fun k => l.contains k

/-- Key set of an explicit microphone-parameter key list. -/
def micKeysOf (l : List MicrophoneParamKey) : MicrophoneParamKey → Bool :=
  fun k => l.contains k

/-! ## Device controller logic (`daemon/src/device.rs`) -/

/-- The channel-to-input map at the top of `handle_fader_mute`
(lines 347-357); the wildcard arm is `none`. -/
def channelToBasicInput : ChannelName → Option BasicInputDevice
  | .Mic => some .Microphone
  | .LineIn => some .LineIn
  | .Console => some .Console
  | .System => some .System
  | .Game => some .Game
  | .Chat => some .Chat
  | .Sample => some .Samples
  | .Music => some .Music
  | _ => none

/-- The input-to-channel map at the top of `apply_transient_routing`
(lines 1119-1128). -/
def inputToChannelName : BasicInputDevice → ChannelName
  | .Microphone => .Mic
  | .Chat => .Chat
  | .Music => .Music
  | .Game => .Game
  | .Console => .Console
  | .LineIn => .LineIn
  | .System => .System
  | .Samples => .Sample

/-- Iteration order of `FaderName::iter()`. -/
def faderList : List FaderName := [.A, .B, .C, .D]

/-- Iteration order of `ChannelName::iter()`. -/
def channelList : List ChannelName :=
  [.Mic, .LineIn, .Console, .System, .Game, .Chat, .Sample, .Music,
   .Headphones, .MicMonitor, .LineOut]

/-- Iteration order of `BasicInputDevice::iter()`. -/
def inputList : List BasicInputDevice :=
  [.Microphone, .Chat, .Music, .Game, .Console, .LineIn, .System, .Samples]

/-- Embeds `Device::mic_muted_by_fader` (lines 672-684). -/
def Device.mic_muted_by_fader (d : Device) : Bool :=
  if d.profile.mic_fader_id = 4 then false
  else
    let fader := match d.profile.mic_fader_id with
      | 0 => FaderName.A
      | 1 => FaderName.B
      | 2 => FaderName.C
      | _ => FaderName.D
    let mb := d.profile.mute_buttons fader
    mb.blink_on || (mb.light_on && decide (mb.mute_function = .All))

/-- Embeds `Device::mic_muted_by_cough` (lines 686-691). -/
def Device.mic_muted_by_cough (d : Device) : Bool :=
  let c := d.profile.cough
  c.blink_on || (c.light_on && decide (c.mute_function = .All))

/-- Embeds `Device::apply_transient_channel_routing` (lines 1155-1173): an active
partial mute removes exactly the one destination named by `mute_function`
from the router. -/
def apply_transient_channel_routing (muted_to_x muted_to_all : Bool)
    (mute_function : MuteFunction) (router : BasicOutputDevice → Bool) :
    BasicOutputDevice → Bool :=
  if !muted_to_x || muted_to_all || decide (mute_function = .All) then router
  else
    match mute_function with
    | .All => router
    | .ToStream => fun o => if o = .BroadcastMix then false else router o
    | .ToVoiceChat => fun o => if o = .ChatMic then false else router o
    | .ToPhones => fun o => if o = .Headphones then false else router o
    | .ToLineOut => fun o => if o = .LineOut then false else router o

/-- Embeds `Device::apply_transient_fader_routing` (lines 1138-1145). -/
def Device.apply_transient_fader_routing (d : Device) (fader : FaderName)
    (router : BasicOutputDevice → Bool) : BasicOutputDevice → Bool :=
  let mb := d.profile.mute_buttons fader
  apply_transient_channel_routing mb.light_on mb.blink_on mb.mute_function router

/-- Embeds `Device::apply_transient_cough_routing` (lines 1147-1153). -/
def Device.apply_transient_cough_routing (d : Device)
    (router : BasicOutputDevice → Bool) : BasicOutputDevice → Bool :=
  let c := d.profile.cough
  apply_transient_channel_routing c.light_on c.blink_on c.mute_function router

/-- Embeds `Device::apply_transient_routing` (lines 1113-1136): fold the transient
suppression of every fader carrying this input's channel over the router,
then the cough suppression. -/
def Device.apply_transient_routing (d : Device) (input : BasicInputDevice)
    (router : BasicOutputDevice → Bool) : BasicOutputDevice → Bool :=
  let channel_name := inputToChannelName input
  let router := faderList.foldl
    (fun r fader =>
      if d.profile.fader_assignment fader = channel_name then
        d.apply_transient_fader_routing fader r
      else r)
    router
  d.apply_transient_cough_routing router

/-- Embeds `Device::apply_routing` (lines 1175-1185): persisted routing for the
input, overlaid with the transient suppressions, pushed to the hardware.
(The byte-level projection of the router done by `apply_channel_routing`
belongs to the `goxlr-usb` crate and is below the granularity of this
model.) -/
def Device.apply_routing (d : Device) (input : BasicInputDevice) : Device :=
  let router := d.profile.routing input
  let router := d.apply_transient_routing input router
  d.goxlr_set_routing input router

/-- Embeds `Device::handle_fader_mute` (lines 339-415): the per-fader mute-button
state machine, parameterized by `held`. -/
def Device.handle_fader_mute (d : Device) (fader : FaderName) (held : Bool) :
    Device :=
  let channel := d.profile.fader_assignment fader
  let current_volume := d.profile.channel_volume channel
  let mb := d.profile.mute_buttons fader
  let muted_to_x := mb.light_on
  let muted_to_all := mb.blink_on
  let mute_function := mb.mute_function
  let basic_input := channelToBasicInput channel
  if held || (!muted_to_x && decide (mute_function = .All)) then
    -- Should we be muting this fader to all channels?
    if held && muted_to_all then
      -- Holding the button when it's already muted to all does nothing.
      d
    else
      let d := { d with profile := d.profile.set_mute_button_previous_volume fader current_volume }
      let d := d.goxlr_set_volume channel 0
      let d := d.goxlr_set_channel_state channel .Muted
      let d := { d with profile := d.profile.set_mute_button_on fader true }
      let d := if held then { d with profile := d.profile.set_mute_button_blink fader true } else d
      { d with profile := d.profile.set_channel_volume channel 0 }
  else if !held && muted_to_x then
    -- Button has been pressed, and we're already in some kind of muted state..
    let d := { d with profile := d.profile.set_mute_button_on fader false }
    let d := { d with profile := d.profile.set_mute_button_blink fader false }
    if muted_to_all || decide (mute_function = .All) then
      let previous_volume := d.profile.get_mute_button_previous_volume fader
      let d := d.goxlr_set_volume channel previous_volume
      let d := { d with profile := d.profile.set_channel_volume channel previous_volume }
      if channel ≠ ChannelName.Mic ∨ (channel = ChannelName.Mic ∧ d.mic_muted_by_cough = false) then
        d.goxlr_set_channel_state channel .Unmuted
      else d
    else
      match basic_input with
      | some input => d.apply_routing input
      | none => d
  else if !held && !muted_to_x && !decide (mute_function = .All) then
    -- Mute channel to X via transient routing table update
    let d := { d with profile := d.profile.set_mute_button_on fader true }
    match basic_input with
    | some input => d.apply_routing input
    | none => d
  else d

/-- Embeds `Device::apply_mute_from_profile` (lines 1187-1200), exactly as written:
the fully-muted branch pushes `Muted` but does not return, so the trailing
`set_channel_state(channel, Unmuted)` always runs. -/
def Device.apply_mute_from_profile (d : Device) (fader : FaderName) : Device :=
  let channel := d.profile.fader_assignment fader
  let mb := d.profile.mute_buttons fader
  let d :=
    if mb.blink_on || (mb.light_on && decide (mb.mute_function = .All)) then
      -- This channel should be fully muted
      d.goxlr_set_channel_state channel .Muted
    else d
  -- This channel isn't supposed to be muted (The Router will handle anything else).
  d.goxlr_set_channel_state channel .Unmuted

/-- Embeds `Device::apply_cough_from_profile` (lines 1202-1218). -/
def Device.apply_cough_from_profile (d : Device) : Device :=
  let c := d.profile.cough
  if !c.mute_toggle && c.light_on then
    let d := { d with profile := d.profile.set_mute_chat_button_on false }
    { d with profile := d.profile.set_mute_chat_button_blink false }
  else if c.blink_on || (c.light_on && decide (c.mute_function = .All)) then
    d.goxlr_set_channel_state .Mic .Muted
  else d

/-! ## Microphone parameter / effect key dispatch -/

/-- Microphone type (`goxlr-types`). -/
inductive MicrophoneType
  | Dynamic | Condenser | Jack
  deriving DecidableEq, Repr

/-- Embeds `MicProfileAdapter::mic_type` (`mic_profile.rs` lines 120-127). -/
def MicProfileAdapter.mic_type (a : MicProfileAdapter) : MicrophoneType :=
  match a.profile.setup.mic_type with
  | 0 => .Dynamic
  | 1 => .Condenser
  | 2 => .Jack
  | _ => .Jack

/-- Embeds `MicrophoneType::get_gain_param` (`goxlr-types`): the gain key of the
selected microphone type. -/
def MicrophoneType.get_gain_param : MicrophoneType → MicrophoneParamKey
  | .Dynamic => .DynamicGain
  | .Condenser => .CondenserGain
  | .Jack => .JackGain

/-- Embeds `MicProfileAdapter::mic_gains` (`mic_profile.rs` lines 112-118), indexed
by microphone type. -/
def MicProfileAdapter.mic_gains (a : MicProfileAdapter) : MicrophoneType → Nat
  | .Dynamic => a.profile.setup.dynamic_mic_gain
  | .Condenser => a.profile.setup.condenser_mic_gain
  | .Jack => a.profile.setup.trs_mic_gain

/-- Embeds `MicProfileAdapter::get_common_keys` (`mic_profile.rs` lines 874-902), as
a key set. -/
def get_common_keys : EffectKey → Bool :=
  effectKeysOf
    [.DeEsser, .GateThreshold, .GateAttack, .GateRelease, .GateAttenuation,
     .CompressorThreshold, .CompressorRatio, .CompressorAttack,
     .CompressorRelease, .CompressorMakeUpGain, .GateEnabled, .BleepLevel,
     .GateMode, .DisableMic, .Encoder1Enabled, .Encoder2Enabled,
     .Encoder3Enabled, .Encoder4Enabled, .RobotEnabled, .HardTuneEnabled,
     .MegaphoneEnabled]

/-- Embeds `MicProfileAdapter::get_full_keys` (`mic_profile.rs` lines 904-917):
every effect key that is not common. -/
def get_full_keys : EffectKey → Bool := fun k => !get_common_keys k

/-- Embeds `Device::apply_mic_params` (lines 1401-1412), at key-set granularity:
one `set_mic_param` push of the given keys. -/
def Device.apply_mic_params (d : Device) (params : MicrophoneParamKey → Bool) :
    Device :=
  d.goxlr_set_mic_param_keys params

/-- Embeds `Device::apply_effects` (lines 1414-1434), at key-set granularity: one
`set_effect_values` push of the given keys. -/
def Device.apply_effects (d : Device) (params : EffectKey → Bool) : Device :=
  d.goxlr_set_effect_keys params

/-- Embeds `Device::apply_mic_gain` (lines 1436-1442). -/
def Device.apply_mic_gain (d : Device) : Device :=
  let mic_type := d.mic_profile.mic_type
  let gain := d.mic_profile.mic_gains mic_type
  { d with hardware := { d.hardware with mic_gain := gain } }

/-- Embeds `Device::apply_mic_profile` (lines 1444-1475): push the mic gain, all
microphone parameters with only the selected type's gain key, then the
common effect keys (plus the full key set on a Full device).  The encoder
and pitch-mode pushes of the Full-device branch are below the granularity of
the hardware model. -/
def Device.apply_mic_profile (d : Device) : Device :=
  let d := d.apply_mic_gain
  let gain_key := d.mic_profile.mic_type.get_gain_param
  let keys : MicrophoneParamKey → Bool := fun k =>
    (!micKeysOf [.DynamicGain, .CondenserGain, .JackGain] k || decide (k = gain_key))
  let d := d.apply_mic_params keys
  let effect_keys : EffectKey → Bool :=
    if d.hardware.device_type = .Full then fun k => get_common_keys k || get_full_keys k
    else get_common_keys
  d.apply_effects effect_keys

/-- Embeds `Device::apply_profile` (lines 1348-1397): set each fader and its mute
state from the profile, apply the cough state, push every channel volume,
and apply routing for every input.  (Colour map, lighting and fader display
styles are outside the modelled hardware state.) -/
def Device.apply_profile (d : Device) : Device :=
  let d := faderList.foldl
    (fun d fader =>
      let d := d.goxlr_set_fader fader (d.profile.fader_assignment fader)
      d.apply_mute_from_profile fader)
    d
  let d := d.apply_cough_from_profile
  let d := channelList.foldl
    (fun d channel => d.goxlr_set_volume channel (d.profile.channel_volume channel))
    d
  inputList.foldl (fun d input => d.apply_routing input) d

/-! ## Command handling (`Device::perform_command`, lines 764-1047)

The embedded command enum carries the commands the verified claims exercise.
A command evaluates to the error or unit result the source returns together
with the device state after the call (`self` is mutated in place in the
source, so mutations made before an error persist — the embedding threads
the state explicitly for exactly that reason). -/

inductive GoXLRCommand
  | LoadProfile (name : String)
  | LoadMicProfile (name : String)
  | SetSwearButtonVolume (volume : Int)
  | SetCompressorThreshold (value : Int)

/-- Embeds `Device::perform_command`, restricted to the embedded commands. -/
def Device.perform_command (d : Device) :
    GoXLRCommand → Except CommandError Unit × Device
  | .SetSwearButtonVolume volume =>
    if volume < -34 ∨ volume > 0 then
      (.error (.validation "Mute volume must be between -34 and 0"), d)
    else
      let d := { d with settings := { d.settings with bleep_volume := some volume } }
      -- settings.save() persists to disk; no modelled state changes.
      let d := d.goxlr_set_effect_keys (effectKeysOf [.BleepLevel])
      (.ok (), d)
  | .SetCompressorThreshold value =>
    if value > 0 ∨ value < -24 then
      (.error (.validation "Compressor Threshold must be between 0 and -24 dB"), d)
    else
      let d := { d with mic_profile := d.mic_profile.set_compressor_threshold value }
      let d := d.apply_mic_params (micKeysOf [.CompressorMakeUpGain])
      let d := d.apply_effects (effectKeysOf [.CompressorMakeUpGain])
      (.ok (), d)
  | .LoadProfile name =>
    match ProfileAdapter.from_named name [d.settings.profile_directory] with
    | .error e => (.error e, d)
    | .ok p =>
      let d := { d with profile := p }
      let d := d.apply_profile
      let d := { d with settings := { d.settings with
        device_profile_name := some d.profile.name } }
      (.ok (), d)
  | .LoadMicProfile name =>
    match MicProfileAdapter.from_named name [d.settings.mic_profile_directory] with
    | .error e => (.error e, d)
    | .ok mp =>
      let d := { d with mic_profile := mp }
      let d := d.apply_mic_profile
      let d := { d with settings := { d.settings with
        device_mic_profile_name := some d.mic_profile.name } }
      (.ok (), d)

/-! ## The polling loop's button-press state machine
(`Device::monitor_inputs`, lines 138-198)

`monitor_inputs` diffs the pressed-button set against `last_buttons`, records
press times for new presses, clears state on release, and fires the hold
handler for buttons pressed longer than 500 ms whose `hold_handled` flag is
still clear.  All three loops act on each button independently (the handlers
they invoke touch the profile and hardware, never `button_states` or
`last_buttons`), so one tick is the pointwise application of a per-button
step.  Time is the `u128` millisecond clock of `get_epoch_ms`, modelled as
`Nat`; the source samples it per loop iteration, the model once per tick. -/

/-- Embeds `ButtonState` (`device.rs` lines 41-45). -/
structure ButtonState where
  press_time : Nat
  hold_handled : Bool
  deriving DecidableEq, Repr

/-- One poll tick for one button: record a new press, clear a release, then
fire the hold handler once the press duration exceeds 500 ms and it has not
fired this press cycle.  Returns the new state and whether the hold handler
fired. -/
def monitorButtonTick (last : Bool) (st : ButtonState) (pressedNow : Bool)
    (now : Nat) : ButtonState × Bool :=
  let st := if pressedNow ∧ ¬last then { press_time := now, hold_handled := false } else st
  let st := if ¬pressedNow ∧ last then { press_time := 0, hold_handled := false } else st
  if pressedNow then
    if st.hold_handled = false ∧ now - st.press_time > 500 then
      ({ st with hold_handled := true }, true)
    else (st, false)
  else (st, false)

/-- The button-state part of the device controller touched by
`monitor_inputs`. -/
structure PollState where
  last_buttons : Buttons → Bool
  button_states : Buttons → ButtonState

/-- One full poll tick (`monitor_inputs` button handling): pointwise
`monitorButtonTick`, and `last_buttons` becomes the current pressed set.
Returns the new state and the set of buttons whose hold handler fired. -/
def pollTick (s : PollState) (pressed : Buttons → Bool) (now : Nat) :
    PollState × (Buttons → Bool) :=
  (⟨pressed, fun b => (monitorButtonTick (s.last_buttons b) (s.button_states b) (pressed b) now).1⟩,
   fun b => (monitorButtonTick (s.last_buttons b) (s.button_states b) (pressed b) now).2)

/-- Run a sequence of poll ticks. -/
def pollRun (s : PollState) : List ((Buttons → Bool) × Nat) → PollState
  | [] => s
  | (p, t) :: rest => pollRun (pollTick s p t).1 rest

/-- The times at which the hold handler fires for button `b` along a
sequence of poll ticks. -/
def holdFires (s : PollState) (b : Buttons) :
    List ((Buttons → Bool) × Nat) → List Nat
  | [] => []
  | (p, t) :: rest =>
    (if (pollTick s p t).2 b then [t] else []) ++ holdFires (pollTick s p t).1 b rest

/-! ## Concrete fixtures -/

/-- A released, non-blinking mute button with function All. -/
def baseMuteButton : MuteButtonState :=
  { light_on := false, blink_on := false, mute_function := .All,
    previous_volume := 0 }

/-- A neutral profile used by the concrete witnesses. -/
def baseProfile : Profile :=
  { name := "base"
    fader_assignment := fun f => match f with
      | .A => .Mic | .B => .Music | .C => .Game | .D => .System
    channel_volume := fun _ => 120
    mute_buttons := fun _ => baseMuteButton
    cough := { mute_toggle := true, light_on := false, blink_on := false,
               mute_function := .All }
    routing := fun _ _ => true
    mic_fader_id := 0 }

def baseHardware : Hardware :=
  { volumes := fun _ => 120
    channel_states := fun _ => .Unmuted
    faders := baseProfile.fader_assignment
    routing := fun _ _ => true
    mic_gain := 50
    mic_param_pushes := []
    effect_pushes := []
    device_type := .Full }

def baseSettings : Settings :=
  { bleep_volume := none
    profile_directory := ⟨fun _ => none⟩
    mic_profile_directory := ⟨fun _ => none⟩
    device_profile_name := none
    device_mic_profile_name := none }

def baseDevice : Device :=
  { profile := baseProfile
    mic_profile := MicProfileAdapter.default
    hardware := baseHardware
    settings := baseSettings }

/-- All buttons released, no recorded press state. -/
def pollInit : PollState :=
  ⟨fun _ => false, fun _ => ⟨0, false⟩⟩

/-! # Theorems -/

set_option maxRecDepth 8192 in
/-- C6: the gate-attenuation percent-to-device-value map is monotonic
non-increasing over percentages 0..=100, percent 0 maps to the table's first
entry (-6) and percent 100 to its last, most negative entry (-61). -/
theorem C6_gate_attenuation_monotone_endpoints :
    (∀ p1 p2 : Fin 101, p1.val ≤ p2.val →
      (gate_attenuation_from_percent p2.val).getD 0
        ≤ (gate_attenuation_from_percent p1.val).getD 0)
    ∧ gate_attenuation_from_percent 0 = some (-6)
    ∧ gate_attenuation_from_percent 100 = some (-61) := by
  refine ⟨?_, by decide, by decide⟩
  decide

/-- Witness for C6 at the concrete pair of percentages 25 and 75. -/
theorem C6_gate_attenuation_monotone_endpoints_witness :
    (25 : Nat) ≤ 75
    ∧ (gate_attenuation_from_percent 75).getD 0
        ≤ (gate_attenuation_from_percent 25).getD 0 :=
  ⟨by decide,
   C6_gate_attenuation_monotone_endpoints.1 ⟨25, by decide⟩ ⟨75, by decide⟩
     (by decide)⟩

set_option maxRecDepth 8192 in
/-- C10: `gate_attenuation_from_percent` is total over every `u8` input: for
all values 0..=255 the table index actually used (25 when the value > 99
guard hits, the computed index otherwise) stays inside the 26-entry
`GATE_ATTENUATION` table, so the lookup never goes out of bounds. -/
theorem C10_gate_attenuation_total_on_u8 :
    ∀ v : Fin 256,
      (if 99 < v.val then 25 else gateAttenuationIndex v.val) < 26
      ∧ (gate_attenuation_from_percent v.val).isSome = true := by
  decide

/-- The C1 counterexample device: fader B carries Music, its mute button has
`muted_to_all` (blink) set, and the hardware currently has every channel
muted, as the fully-muted branch of `apply_mute_from_profile` itself
establishes. -/
def c1Device : Device :=
  { baseDevice with
    profile := { baseProfile with
      mute_buttons := fun f =>
        if f = .B then
          { light_on := true, blink_on := true, mute_function := .All,
            previous_volume := 120 }
        else baseMuteButton }
    hardware := { baseHardware with channel_states := fun _ => .Muted } }

/-- C1: the claimed invariant `muted_to_all(f) => hardware channel state of
channel_of(f) = Muted` is broken by `apply_mute_from_profile`: with fader B
muted to all, applying the mute state from the profile leaves the Music
channel Unmuted, because the fully-muted branch falls through to the
unconditional `set_channel_state(channel, Unmuted)` (the missing early
return contradicts the branch's own comments). -/
theorem C1_apply_mute_from_profile_unmutes_muted_to_all_fader :
    (c1Device.profile.get_mute_button_state .B).2.1 = true
    ∧ c1Device.profile.fader_assignment .B = .Music
    ∧ c1Device.hardware.channel_states .Music = .Muted
    ∧ (c1Device.apply_mute_from_profile .B).hardware.channel_states .Music
        = .Unmuted
    ∧ ((c1Device.apply_mute_from_profile .B).profile.get_mute_button_state .B).2.1
        = true := by
  exact ⟨rfl, rfl, rfl, rfl, rfl⟩

/-- C9: `SetCompressorThreshold` with the valid value -10 succeeds and stores
the threshold, but the key sets it pushes to the hardware are the
compressor-makeup-gain microphone parameter and effect keys, not the
compressor-threshold keys the minimal-keyset rule requires. -/
theorem C9_set_compressor_threshold_pushes_makeup_gain_keys :
    (baseDevice.perform_command (.SetCompressorThreshold (-10))).1 = .ok ()
    ∧ (baseDevice.perform_command
        (.SetCompressorThreshold (-10))).2.mic_profile.profile.compressor.threshold
        = -10
    ∧ (baseDevice.perform_command
        (.SetCompressorThreshold (-10))).2.hardware.mic_param_pushes
        = [micKeysOf [.CompressorMakeUpGain]]
    ∧ (baseDevice.perform_command
        (.SetCompressorThreshold (-10))).2.hardware.effect_pushes
        = [effectKeysOf [.CompressorMakeUpGain]]
    ∧ micKeysOf [.CompressorMakeUpGain] MicrophoneParamKey.CompressorThreshold
        = false
    ∧ effectKeysOf [.CompressorMakeUpGain] EffectKey.CompressorThreshold
        = false := by
  exact ⟨rfl, rfl, rfl, rfl, rfl, rfl⟩

/-- C7: loading a profile or mic profile by a name with no matching file in
the configured directory that is not the reserved default name returns the
resource error, and the device (in particular its in-memory profiles) is
returned exactly as it was. -/
theorem C7_load_missing_profile_errors_and_preserves_state
    (d : Device) (name : String)
    (hmic : d.settings.mic_profile_directory.files name = none)
    (hmicname : name ≠ DEFAULT_MIC_PROFILE_NAME)
    (hprof : d.settings.profile_directory.files name = none)
    (hprofname : name ≠ DEFAULT_PROFILE_NAME) :
    d.perform_command (.LoadMicProfile name)
      = (.error (.micProfileNotFound name), d)
    ∧ d.perform_command (.LoadProfile name)
      = (.error (.profileNotFound name), d) := by
  constructor
  · simp [Device.perform_command, MicProfileAdapter.from_named, hmic, hmicname]
  · simp [Device.perform_command, ProfileAdapter.from_named, hprof, hprofname]

/-- Witness for C7: loading the missing name "Missing" on the base device
(whose configured directories are empty). -/
theorem C7_load_missing_profile_errors_and_preserves_state_witness :
    baseDevice.perform_command (.LoadMicProfile "Missing")
      = (.error (.micProfileNotFound "Missing"), baseDevice)
    ∧ baseDevice.perform_command (.LoadProfile "Missing")
      = (.error (.profileNotFound "Missing"), baseDevice) :=
  C7_load_missing_profile_errors_and_preserves_state baseDevice "Missing"
    rfl (by decide) rfl (by decide)

/-- C8: `SetSwearButtonVolume` rejects every volume outside -34..=0 with the
validation error, leaving the whole device (settings and hardware included)
untouched, and for every volume inside the range succeeds, stores the value
in the settings and pushes the BleepLevel effect key. -/
theorem C8_swear_button_volume_validation (d : Device) (v : Int) :
    ((v < -34 ∨ v > 0) →
      d.perform_command (.SetSwearButtonVolume v)
        = (.error (.validation "Mute volume must be between -34 and 0"), d))
    ∧ (-34 ≤ v → v ≤ 0 →
      (d.perform_command (.SetSwearButtonVolume v)).1 = .ok ()
      ∧ (d.perform_command (.SetSwearButtonVolume v)).2.settings.bleep_volume
          = some v
      ∧ (d.perform_command (.SetSwearButtonVolume v)).2.hardware.effect_pushes
          = effectKeysOf [.BleepLevel] :: d.hardware.effect_pushes) := by
  constructor
  · intro h
    simp only [Device.perform_command, if_pos h]
  · intro h1 h2
    have h : ¬(v < -34 ∨ v > 0) := by
      push_neg
      exact ⟨h1, h2⟩
    simp [Device.perform_command, if_neg h, Device.goxlr_set_effect_keys]

/-- Witness for C8: value 5 (the claim's concrete scenario) is rejected with
the device unchanged; value -10 is stored and pushed. -/
theorem C8_swear_button_volume_validation_witness :
    baseDevice.perform_command (.SetSwearButtonVolume 5)
      = (.error (.validation "Mute volume must be between -34 and 0"), baseDevice)
    ∧ (baseDevice.perform_command (.SetSwearButtonVolume (-10))).1 = .ok ()
    ∧ (baseDevice.perform_command
        (.SetSwearButtonVolume (-10))).2.settings.bleep_volume = some (-10)
    ∧ (baseDevice.perform_command
        (.SetSwearButtonVolume (-10))).2.hardware.effect_pushes
      = effectKeysOf [.BleepLevel] :: baseDevice.hardware.effect_pushes :=
  ⟨(C8_swear_button_volume_validation baseDevice 5).1 (Or.inr (by decide)),
   (C8_swear_button_volume_validation baseDevice (-10)).2 (by decide) (by decide)⟩

set_option maxHeartbeats 2000000 in
/-- C2: on a fader that is not currently muted-to-all, a hold-triggered full
mute snapshots the pre-mute volume into `previous_volume`, zeroes the
hardware volume and mutes the channel; the following non-held press restores
exactly that snapshot, bit for bit, to both the hardware volume and the
stored channel volume. -/
theorem C2_hold_release_restores_previous_volume (d : Device) (f : FaderName)
    (hblink : (d.profile.mute_buttons f).blink_on = false) :
    ((d.handle_fader_mute f true).profile.mute_buttons f).previous_volume
      = d.profile.channel_volume (d.profile.fader_assignment f)
    ∧ (d.handle_fader_mute f true).hardware.volumes
        (d.profile.fader_assignment f) = 0
    ∧ (d.handle_fader_mute f true).hardware.channel_states
        (d.profile.fader_assignment f) = .Muted
    ∧ ((d.handle_fader_mute f true).handle_fader_mute f false).hardware.volumes
        (d.profile.fader_assignment f)
      = d.profile.channel_volume (d.profile.fader_assignment f)
    ∧ ((d.handle_fader_mute f true).handle_fader_mute f false).profile.channel_volume
        (d.profile.fader_assignment f)
      = d.profile.channel_volume (d.profile.fader_assignment f) := by
  refine ⟨?_, ?_, ?_, ?_, ?_⟩ <;>
    simp only [Device.handle_fader_mute, Device.goxlr_set_volume,
      Device.goxlr_set_channel_state, Device.goxlr_set_routing,
      Device.apply_routing, Device.apply_transient_routing,
      Profile.set_mute_button_on, Profile.set_mute_button_blink,
      Profile.set_mute_button_previous_volume, Profile.set_mute_button,
      Profile.set_channel_volume, Profile.get_mute_button_previous_volume,
      hblink] <;>
    (try simp) <;>
    (try (split <;> simp))

/-- Witness for C2: the base device, fader C (channel Game, volume 120). -/
theorem C2_hold_release_restores_previous_volume_witness :
    ((baseDevice.handle_fader_mute .C true).profile.mute_buttons .C).previous_volume
      = baseDevice.profile.channel_volume (baseDevice.profile.fader_assignment .C)
    ∧ (baseDevice.handle_fader_mute .C true).hardware.volumes
        (baseDevice.profile.fader_assignment .C) = 0
    ∧ (baseDevice.handle_fader_mute .C true).hardware.channel_states
        (baseDevice.profile.fader_assignment .C) = .Muted
    ∧ ((baseDevice.handle_fader_mute .C true).handle_fader_mute .C false).hardware.volumes
        (baseDevice.profile.fader_assignment .C)
      = baseDevice.profile.channel_volume (baseDevice.profile.fader_assignment .C)
    ∧ ((baseDevice.handle_fader_mute .C true).handle_fader_mute .C false).profile.channel_volume
        (baseDevice.profile.fader_assignment .C)
      = baseDevice.profile.channel_volume (baseDevice.profile.fader_assignment .C) :=
  C2_hold_release_restores_previous_volume baseDevice .C rfl

set_option maxHeartbeats 2000000 in
/-- C3: a non-held press on a fader that is in a full mute (`muted_to_all` or
`mute_function = All`) sets the hardware channel state of the fader's channel
to Unmuted, except when that channel is the microphone channel and the cough
button independently holds it fully muted, in which case the hardware channel
state is left exactly as it was (in context: Muted). -/
theorem C3_release_full_mute_unmutes_unless_cough_muted (d : Device) (f : FaderName)
    (hmtx : (d.profile.mute_buttons f).light_on = true)
    (hfull : (d.profile.mute_buttons f).blink_on = true
      ∨ (d.profile.mute_buttons f).mute_function = .All) :
    ((d.profile.fader_assignment f ≠ .Mic ∨ d.mic_muted_by_cough = false) →
      (d.handle_fader_mute f false).hardware.channel_states
        (d.profile.fader_assignment f) = .Unmuted)
    ∧ (d.profile.fader_assignment f = .Mic → d.mic_muted_by_cough = true →
      (d.handle_fader_mute f false).hardware.channel_states
        (d.profile.fader_assignment f)
      = d.hardware.channel_states (d.profile.fader_assignment f)) := by
  have hcond : ((d.profile.mute_buttons f).blink_on
      || decide ((d.profile.mute_buttons f).mute_function = MuteFunction.All)) = true := by
    rcases hfull with hb | hm
    · simp [hb]
    · simp [hm]
  constructor
  · intro h
    simp only [Device.handle_fader_mute, Device.goxlr_set_volume,
      Device.goxlr_set_channel_state, Profile.set_mute_button_on,
      Profile.set_mute_button_blink, Profile.set_mute_button,
      Profile.set_channel_volume, Profile.get_mute_button_previous_volume,
      hmtx, hcond]
    (try simp) <;> (try (split <;> simp_all [Device.mic_muted_by_cough]))
  · intro hmic hcough
    simp only [Device.handle_fader_mute, Device.goxlr_set_volume,
      Device.goxlr_set_channel_state, Profile.set_mute_button_on,
      Profile.set_mute_button_blink, Profile.set_mute_button,
      Profile.set_channel_volume, Profile.get_mute_button_previous_volume,
      hmtx, hcond]
    (try simp) <;> (try (split <;> simp_all [Device.mic_muted_by_cough]))

/-- The C3 witness device: every fader is muted to all (light and blink on),
fader A carries Mic, fader B carries Music, the cough button fully mutes the
mic, and the hardware has the Mic channel Muted. -/
def c3Device : Device :=
  { baseDevice with
    profile := { baseProfile with
      mute_buttons := fun _ =>
        { light_on := true, blink_on := true, mute_function := .All,
          previous_volume := 90 }
      cough := { mute_toggle := true, light_on := true, blink_on := true,
                 mute_function := .All } }
    hardware := { baseHardware with
      channel_states := fun c => if c = .Mic then .Muted else .Unmuted } }

/-- Witness for C3: on the concrete device, releasing fader B (Music)
unmutes the Music channel, while releasing fader A (Mic, held muted by the
cough button) leaves the Mic channel state as it was (Muted). -/
theorem C3_release_full_mute_unmutes_unless_cough_muted_witness :
    (c3Device.handle_fader_mute .B false).hardware.channel_states
      (c3Device.profile.fader_assignment .B) = .Unmuted
    ∧ (c3Device.handle_fader_mute .A false).hardware.channel_states
        (c3Device.profile.fader_assignment .A)
      = c3Device.hardware.channel_states (c3Device.profile.fader_assignment .A) :=
  ⟨(C3_release_full_mute_unmutes_unless_cough_muted c3Device .B rfl
      (Or.inl rfl)).1 (Or.inl (by decide)),
   (C3_release_full_mute_unmutes_unless_cough_muted c3Device .A rfl
      (Or.inl rfl)).2 rfl rfl⟩

/-- The routable channels map back to themselves: if a channel maps to an
input device, that input maps back to the channel. -/
theorem channelToBasicInput_some (c : ChannelName) (i : BasicInputDevice)
    (h : channelToBasicInput c = some i) : inputToChannelName i = c := by
  revert h
  revert i
  revert c
  decide

set_option maxHeartbeats 4000000 in
/-- C4: with mute function ToStream on an unmuted fader whose channel is
routable, is carried by no other fader, and is not transient-muted by the
cough button, a non-held press makes the effective routing pushed for that
channel have BroadcastMix false and every other destination equal to the
persisted routing table; a second press pushes the persisted value for every
destination again (BroadcastMix included). -/
theorem C4_tostream_press_toggles_broadcast_mix (d : Device) (f : FaderName)
    (input : BasicInputDevice)
    (hoff : (d.profile.mute_buttons f).light_on = false)
    (hblk : (d.profile.mute_buttons f).blink_on = false)
    (hfun : (d.profile.mute_buttons f).mute_function = .ToStream)
    (hinput : channelToBasicInput (d.profile.fader_assignment f) = some input)
    (hcough : d.profile.cough.light_on = false ∨ d.profile.cough.blink_on = true
      ∨ d.profile.cough.mute_function = .All)
    (hothers : ∀ g : FaderName, g ≠ f →
      d.profile.fader_assignment g ≠ d.profile.fader_assignment f) :
    ((d.handle_fader_mute f false).hardware.routing input .BroadcastMix = false
      ∧ ∀ o : BasicOutputDevice, o ≠ .BroadcastMix →
          (d.handle_fader_mute f false).hardware.routing input o
            = d.profile.routing input o)
    ∧ ∀ o : BasicOutputDevice,
        ((d.handle_fader_mute f false).handle_fader_mute f false).hardware.routing
            input o
          = d.profile.routing input o := by
  have hinv : inputToChannelName input = d.profile.fader_assignment f :=
    channelToBasicInput_some _ _ hinput
  have hcough' : (!d.profile.cough.light_on || d.profile.cough.blink_on
      || decide (d.profile.cough.mute_function = MuteFunction.All)) = true := by
    rcases hcough with h | h | h <;> simp [h]
  refine ⟨⟨?_, fun o ho => ?_⟩, fun o => ?_⟩ <;>
    fin_cases f <;>
    simp only [Device.handle_fader_mute, Device.apply_routing,
      Device.apply_transient_routing, Device.apply_transient_fader_routing,
      Device.apply_transient_cough_routing, apply_transient_channel_routing,
      Device.goxlr_set_routing, Device.goxlr_set_volume,
      Device.goxlr_set_channel_state, Profile.set_mute_button_on,
      Profile.set_mute_button_blink, Profile.set_mute_button,
      Profile.set_channel_volume, Profile.get_mute_button_previous_volume,
      faderList, List.foldl, hoff, hblk, hfun, hinput, hinv, hcough'] <;>
    simp_all [hothers]

/-- The C4 witness device: fader C carries Game with mute function ToStream,
unmuted; no other fader carries Game; the cough button is idle; the
persisted routing table routes everything everywhere. -/
def c4Device : Device :=
  { baseDevice with
    profile := { baseProfile with
      mute_buttons := fun x =>
        if x = .C then
          { light_on := false, blink_on := false, mute_function := .ToStream,
            previous_volume := 0 }
        else baseMuteButton } }

/-- Witness for C4: pressing fader C's mute button pushes Game routing with
BroadcastMix off and Headphones (for example) untouched; pressing again
pushes the persisted value for every destination. -/
theorem C4_tostream_press_toggles_broadcast_mix_witness :
    ((c4Device.handle_fader_mute .C false).hardware.routing .Game .BroadcastMix
        = false
      ∧ (c4Device.handle_fader_mute .C false).hardware.routing .Game .Headphones
        = c4Device.profile.routing .Game .Headphones)
    ∧ ((c4Device.handle_fader_mute .C false).handle_fader_mute .C false).hardware.routing
        .Game .BroadcastMix
      = c4Device.profile.routing .Game .BroadcastMix :=
  ⟨⟨(C4_tostream_press_toggles_broadcast_mix c4Device .C .Game rfl rfl rfl rfl
        (Or.inl rfl) (by decide)).1.1,
    (C4_tostream_press_toggles_broadcast_mix c4Device .C .Game rfl rfl rfl rfl
        (Or.inl rfl) (by decide)).1.2 .Headphones (by decide)⟩,
   (C4_tostream_press_toggles_broadcast_mix c4Device .C .Game rfl rfl rfl rfl
        (Or.inl rfl) (by decide)).2 .BroadcastMix⟩

/-- While a button stays pressed with `hold_handled` already set, no further
poll tick fires its hold handler and the flag stays set. -/
theorem holdFires_eq_nil_of_handled (b : Buttons) :
    ∀ (ticks : List ((Buttons → Bool) × Nat)) (s : PollState),
      s.last_buttons b = true → (s.button_states b).hold_handled = true →
      (∀ pt ∈ ticks, pt.1 b = true) →
      holdFires s b ticks = [] := by
  intro ticks
  induction ticks with
  | nil => intro s _ _ _; rfl
  | cons pt rest ih =>
    intro s hlast hh hall
    obtain ⟨p, t⟩ := pt
    have hp : p b = true := hall (p, t) (List.mem_cons_self _ _)
    have hfire : (pollTick s p t).2 b = false := by
      simp [pollTick, monitorButtonTick, hp, hlast, hh]
    have h1 : (pollTick s p t).1.last_buttons b = true := hp
    have h2 : ((pollTick s p t).1.button_states b).hold_handled = true := by
      simp [pollTick, monitorButtonTick, hp, hlast, hh]
    simp [holdFires, hfire,
      ih _ h1 h2 (fun q hq => hall q (List.mem_cons_of_mem _ hq))]

/-- While a button stays pressed with recorded press time `t1` and
`hold_handled` clear, the remaining ticks fire the hold handler at most once,
and only at a time exceeding `t1 + 500`. -/
theorem holdFires_pressed_bound (b : Buttons) (t1 : Nat) :
    ∀ (ticks : List ((Buttons → Bool) × Nat)) (s : PollState),
      s.last_buttons b = true →
      (s.button_states b).press_time = t1 →
      (s.button_states b).hold_handled = false →
      (∀ pt ∈ ticks, pt.1 b = true) →
      (holdFires s b ticks).length ≤ 1
      ∧ ∀ t ∈ holdFires s b ticks, 500 < t - t1 := by
  intro ticks
  induction ticks with
  | nil => intro s _ _ _ _; exact ⟨by simp [holdFires], by simp [holdFires]⟩
  | cons pt rest ih =>
    intro s hlast hpt hh hall
    obtain ⟨p, t⟩ := pt
    have hp : p b = true := hall (p, t) (List.mem_cons_self _ _)
    have hall' : ∀ q ∈ rest, q.1 b = true :=
      fun q hq => hall q (List.mem_cons_of_mem _ hq)
    have hlast' : (pollTick s p t).1.last_buttons b = true := hp
    by_cases hgt : 500 < t - t1
    · -- the hold handler fires at this tick and never again
      have hfire : (pollTick s p t).2 b = true := by
        simp [pollTick, monitorButtonTick, hp, hlast, hh, hpt, hgt]
      have h2 : ((pollTick s p t).1.button_states b).hold_handled = true := by
        simp [pollTick, monitorButtonTick, hp, hlast, hh, hpt, hgt]
      have hrest : holdFires (pollTick s p t).1 b rest = [] :=
        holdFires_eq_nil_of_handled b rest _ hlast' h2 hall'
      refine ⟨?_, ?_⟩ <;> simp [holdFires, hfire, hrest]
      exact hgt
    · -- duration not yet exceeded: no fire, state unchanged
      have hfire : (pollTick s p t).2 b = false := by
        simp [pollTick, monitorButtonTick, hp, hlast, hh, hpt, hgt]
      have h2 : (pollTick s p t).1.button_states b = s.button_states b := by
        simp [pollTick, monitorButtonTick, hp, hlast, hh, hpt, hgt]
      have := ih (pollTick s p t).1 hlast' (by rw [h2]; exact hpt)
        (by rw [h2]; exact hh) hall'
      refine ⟨?_, ?_⟩ <;> simp [holdFires, hfire]
      · exact this.1
      · exact this.2

set_option maxHeartbeats 1000000 in
/-- C5: over a press cycle of button `b` — a tick where `b` transitions to
pressed, followed by ticks where it stays pressed — the button-hold handler
fires at most once, and only at a tick whose clock exceeds the recorded
press time by more than 500 ms; moreover any tick that fires the hold
handler leaves `hold_handled` set, which is what blocks later ticks of the
same press. -/
theorem C5_hold_handler_at_most_once_after_500ms (s0 : PollState) (b : Buttons)
    (p1 : Buttons → Bool) (t1 : Nat) (rest : List ((Buttons → Bool) × Nat))
    (hstart : s0.last_buttons b = false)
    (hp1 : p1 b = true)
    (hall : ∀ pt ∈ rest, pt.1 b = true) :
    (holdFires s0 b ((p1, t1) :: rest)).length ≤ 1
    ∧ (∀ t ∈ holdFires s0 b ((p1, t1) :: rest), 500 < t - t1)
    ∧ (∀ (s : PollState) (p : Buttons → Bool) (t : Nat),
        (pollTick s p t).2 b = true →
        ((pollTick s p t).1.button_states b).hold_handled = true) := by
  have hfire1 : (pollTick s0 p1 t1).2 b = false := by
    simp [pollTick, monitorButtonTick, hp1, hstart]
  have hlast1 : (pollTick s0 p1 t1).1.last_buttons b = true := hp1
  have hst1 : (pollTick s0 p1 t1).1.button_states b
      = { press_time := t1, hold_handled := false } := by
    simp [pollTick, monitorButtonTick, hp1, hstart]
  have hbound := holdFires_pressed_bound b t1 rest (pollTick s0 p1 t1).1
    hlast1 (by rw [hst1]) (by rw [hst1]) hall
  refine ⟨?_, ?_, ?_⟩
  · simp [holdFires, hfire1]
    exact hbound.1
  · simp [holdFires, hfire1]
    exact hbound.2
  · intro s p t hfired
    simp only [pollTick, monitorButtonTick] at hfired ⊢
    split_ifs at hfired ⊢ <;> simp_all

/-- Witness for C5: from the idle state, press fader 1's mute button at
1000 ms and keep it pressed at the 1600 ms tick — the hold handler fires at
most once, only more than 500 ms after the press (concretely, exactly once,
at 1600 ms). -/
theorem C5_hold_handler_at_most_once_after_500ms_witness :
    ((holdFires pollInit .Fader1Mute
        [(fun _ => true, 1000), (fun _ => true, 1600)]).length ≤ 1
      ∧ (∀ t ∈ holdFires pollInit .Fader1Mute
          [(fun _ => true, 1000), (fun _ => true, 1600)], 500 < t - 1000)
      ∧ (∀ (s : PollState) (p : Buttons → Bool) (t : Nat),
          (pollTick s p t).2 .Fader1Mute = true →
          ((pollTick s p t).1.button_states .Fader1Mute).hold_handled = true))
    ∧ holdFires pollInit .Fader1Mute
        [(fun _ => true, 1000), (fun _ => true, 1600)] = [1600] :=
  ⟨C5_hold_handler_at_most_once_after_500ms pollInit .Fader1Mute
      (fun _ => true) 1000 [(fun _ => true, 1600)] rfl rfl
      (fun pt hpt => by rw [List.mem_singleton.mp hpt]),
   by decide⟩

end GoXLRSpec
